import Mathlib

/-!
Verification of the billing-and-state reconciliation engine of the outbound
call-campaign system.  The definitions below are a shallow embedding of the
Supabase edge functions found in the repository:

* `handleMinutesRefund`, `updateCampaignStatus` — the poll-batch-status
  function (src/unnamed/part_000);
* the ElevenLabs webhook handler, which exists in the repository in two
  variants (`...V1` is the first handler in
  src/supabase/functions/eleven-labs-webhook/index.ts, `...V2` the second);
* the launch-campaign status update (src/supabase/functions/launch-campaign);
* the `minutes_transactions` ledger table
  (src/supabase/migrations/20250101_create_minutes_transactions.sql).

Database tables are modelled as lists of rows; `.single()` / `.maybeSingle()`
lookups are modelled by `exactlyOne` (both yield a row exactly when the filter
matches exactly one row; otherwise the calling code treats the result as
absent).  Timestamp columns (`created_at`, `updated_at`, `launched_at`) and
the opaque JSON payload columns (`analysis`, `metadata`,
`dynamic_variables`, `conversation_initiation_client_data`) carry no
information used by any verified property and are omitted from the row
models.  The source's `|| 0` null-guards on numeric columns are absorbed by
modelling those columns as integers (an absent value enters the model as 0,
exactly the value the guard produces).
-/

namespace CampaignReconciliation

/-- Row of the `profiles` table.  `user_id` models the key the source
filters on (`id` in the poll function, `user_id` in cleanup-minutes). -/
structure Profile where
  user_id : String
  available_minutes : Int
deriving Repr, DecidableEq

/-- Row of the append-only `minutes_transactions` ledger table
(migration 20250101). -/
structure MinutesTransaction where
  user_id : String
  campaign_id : Option String
  batch_id : Option String
  transaction_type : String
  minutes : Int
  description : String
deriving Repr, DecidableEq

/-- Row of the `campaigns` table (the fields the reconciliation code
touches).  `status` holds the literal strings the source writes:
"Draft", "Launched", "Completed", "Failed". -/
structure Campaign where
  id : String
  user_id : String
  status : String
deriving Repr, DecidableEq

/-- Row of the `batch_calls` table. -/
structure BatchCall where
  batch_id : String
  user_id : String
  campaign_id : Option String
  status : String
  total_calls_scheduled : Int
  total_calls_dispatched : Int
  last_updated_at_unix : Int
deriving Repr, DecidableEq

/-- Row of the `recipients` table. -/
structure Recipient where
  user_id : String
  elevenlabs_batch_id : String
  elevenlabs_recipient_id : String
  phone_number : String
  contact_name : Option String
  status : Option String
  elevenlabs_conversation_id : Option String
deriving Repr, DecidableEq

/-- One turn of a conversation transcript, as delivered in the webhook
payload. -/
structure TranscriptTurn where
  role : String
  message : String
  time_in_call_secs : Int
deriving Repr, DecidableEq

/-- Row of the `conversations` table (the columns written by the webhook
upserts, plus `campaign_id`, which only the poll function's placeholder
upserts write — the webhook upsert payloads do not contain it, so a
webhook upsert leaves it unchanged on conflict and a webhook insert
leaves it at the column default NULL). -/
structure Conversation where
  conversation_id : String
  user_id : String
  agent_id : Option String
  campaign_id : Option String
  phone_number : Option String
  contact_name : Option String
  status : Option String
  call_successful : Option String
  call_duration_secs : Int
  total_cost : Int
  conversation_summary : Option String
  has_audio : Bool
  elevenlabs_batch_id : Option String
  recipient_id : Option String
  recipient_phone_number : Option String
deriving Repr, DecidableEq

/-- Row of the `transcripts` table as used by the second webhook variant
(one row per conversation, upserted by `conversation_id`). -/
structure TranscriptRow where
  conversation_id : String
  full_transcript : List TranscriptTurn
deriving Repr, DecidableEq

/-- Row of the `transcripts` table as used by the first webhook variant
(one inserted row per transcript turn). -/
structure TranscriptEntry where
  conversation_id : String
  role : String
  message : String
  time_in_call_secs : Int
deriving Repr, DecidableEq

/-- The persistent state: every table the reconciliation code reads or
writes. -/
structure DB where
  profiles : List Profile
  minutes_transactions : List MinutesTransaction
  campaigns : List Campaign
  batch_calls : List BatchCall
  recipients : List Recipient
  conversations : List Conversation
  transcripts : List TranscriptRow
  transcript_entries : List TranscriptEntry
deriving Repr, DecidableEq

def emptyDB : DB :=
  { profiles := [], minutes_transactions := [], campaigns := [], batch_calls := []
    recipients := [], conversations := [], transcripts := [], transcript_entries := [] }

/-- JavaScript `toLowerCase()` as the source applies it to ASCII status
strings: character-wise lowercasing.  (Defined over the character list so
that it reduces inside the kernel.) -/
def jsToLower (s : String) : String := ⟨s.data.map Char.toLower⟩

/-- Semantics shared by supabase-js `.single()` and `.maybeSingle()` in the
embedded code paths: a row is produced exactly when the filtered result set
has exactly one element; zero or several matches make the caller treat the
lookup as failed/absent. -/
def exactlyOne : List α → Option α
  | [a] => some a
  | _ => none

/-! ### Usage calculator

`billableMinutes` embeds the reducer body of `handleMinutesRefund`
(src/unnamed/part_000 lines 41-50): only calls whose status is
case-insensitively "done" or "completed" count; 0 (or negative) seconds
bill 0 minutes, 1–60 seconds bill 1 minute, otherwise
`Math.ceil(durationSecs / 60)` minutes (for `d > 60` this equals
`(d + 59) / 60` in integer division). -/
def billableStatusStr (status : String) : Bool :=
  jsToLower status = "done" || jsToLower status = "completed"

def billableMinutes (durationSecs : Int) (status : String) : Int :=
  if billableStatusStr status then
    if durationSecs ≤ 0 then 0
    else if durationSecs ≤ 60 then 1
    else (((durationSecs.toNat + 59) / 60 : Nat) : Int)
  else 0

/-- The `conv.status?.toLowerCase()` optional chain of the reducer: a NULL
status contributes 0. -/
def convBillable (c : Conversation) : Int :=
  match c.status with
  | some s => billableMinutes c.call_duration_secs s
  | none => 0

/-- Whether an (optional) conversation status counts as billable, i.e. is
case-insensitively "done" or "completed". -/
def isBillableStatus : Option String → Bool
  | some s => billableStatusStr s
  | none => false

/-- `actualMinutesUsed` from `handleMinutesRefund`: the reduce over the
conversations of the deduction's campaign (source selects
`conversations` with `.eq('campaign_id', deductionTransaction.campaign_id)`
and folds the billing reducer starting from 0). -/
def actualMinutesUsed (db : DB) (campaignId : Option String) : Int :=
  (db.conversations.filter fun c => c.campaign_id = campaignId).foldl
    (fun sum c => sum + convBillable c) 0

/-- The refund amount computed by `handleMinutesRefund` once the original
deduction is in hand: the full original amount for a failed campaign,
otherwise `Math.max(0, originalMinutes - actualMinutesUsed)`. -/
def settleRefundAmount (db : DB) (ded : MinutesTransaction) (isFailedCampaign : Bool) : Int :=
  if isFailedCampaign then ded.minutes
  else max 0 (ded.minutes - actualMinutesUsed db ded.campaign_id)

/-- The deduction lookup at the top of `handleMinutesRefund`:
`minutes_transactions` filtered by batch, user and type 'deduction',
read with `.single()`. -/
def deductionLookup (db : DB) (batchId userId : String) : Option MinutesTransaction :=
  exactlyOne (db.minutes_transactions.filter fun t =>
    t.batch_id = some batchId ∧ t.user_id = userId ∧ t.transaction_type = "deduction")

/-- Outcome of each fallible storage round trip inside
`handleMinutesRefund`.  The source logs and returns (or logs and carries
on, for the final insert) when one of them errors; `true` means the round
trip succeeded. -/
structure StepOutcomes where
  conversationsFetchOk : Bool
  profileFetchOk : Bool
  profileUpdateOk : Bool
  refundInsertOk : Bool
deriving Repr, DecidableEq

def allStepsOk : StepOutcomes :=
  { conversationsFetchOk := true, profileFetchOk := true
    profileUpdateOk := true, refundInsertOk := true }

/-- `handleMinutesRefund` (src/unnamed/part_000 lines 6-105) with the
outcome of every fallible storage write made explicit.  Mirrors the
source step for step: find the deduction (`.single()`, early return on
failure); for a non-failed campaign fetch the conversations (early return
on failure) and compute the refund; if the refund is positive, read the
profile (early return on failure), write back the incremented balance
(early return on failure), then insert the refund row (an insert error is
only logged — the balance write is not undone). -/
def handleMinutesRefundF (db : DB) (batchId userId : String)
    (isFailedCampaign : Bool) (o : StepOutcomes) : DB :=
  match deductionLookup db batchId userId with
  | none => db
  | some ded =>
    if !isFailedCampaign && !o.conversationsFetchOk then db
    else
      let refundMinutes := settleRefundAmount db ded isFailedCampaign
      if refundMinutes > 0 then
        if !o.profileFetchOk then db
        else
          match exactlyOne (db.profiles.filter fun p => p.user_id = userId) with
          | none => db
          | some currentProfile =>
            if !o.profileUpdateOk then db
            else
              let newAvailableMinutes := currentProfile.available_minutes + refundMinutes
              let db1 : DB :=
                { db with profiles := db.profiles.map fun p =>
                    if p.user_id = userId then
                      { p with available_minutes := newAvailableMinutes }
                    else p }
              if !o.refundInsertOk then db1
              else
                { db1 with minutes_transactions := db1.minutes_transactions ++
                    [{ user_id := userId
                       campaign_id := ded.campaign_id
                       batch_id := some batchId
                       transaction_type := "refund"
                       minutes := refundMinutes
                       description :=
                         if isFailedCampaign then "Campaign failed - full refund"
                         else "Campaign completed - unused minutes refund" }] }
      else db

/-- `handleMinutesRefund` on the path where every storage round trip
succeeds. -/
def handleMinutesRefund (db : DB) (batchId userId : String)
    (isFailedCampaign : Bool) : DB :=
  handleMinutesRefundF db batchId userId isFailedCampaign allStepsOk

/-! ### Campaign status mapping and update -/

/-- The batch-status → campaign-status switch of `updateCampaignStatus`
(src/unnamed/part_000 lines 128-143): lowercases the provider status; the
completed family maps to "Completed", the failed family to "Failed", and
every other string leaves `campaignStatus` at `null` (no change). -/
def mapBatchStatus (s : String) : Option String :=
  if jsToLower s = "completed" || jsToLower s = "successful" || jsToLower s = "success" then
    some "Completed"
  else if jsToLower s = "failed" || jsToLower s = "error" || jsToLower s = "cancelled" then
    some "Failed"
  else none

/-- `updateCampaignStatus` (src/unnamed/part_000 lines 108-165): find the
batch row by (batch_id, user_id) with `.single()`; bail out if absent or
unlinked to a campaign; map the batch status; when the mapping yields a
status, write it to the campaign row unconditionally (the current
campaign status is never consulted). -/
def updateCampaignStatus (db : DB) (batchId batchStatus userId : String) : DB :=
  match exactlyOne (db.batch_calls.filter fun bc =>
      bc.batch_id = batchId ∧ bc.user_id = userId) with
  | none => db
  | some bc =>
    match bc.campaign_id with
    | none => db
    | some cid =>
      match mapBatchStatus batchStatus with
      | none => db
      | some st =>
        { db with campaigns := db.campaigns.map fun c =>
            if c.id = cid then { c with status := st } else c }

/-- The campaign status write of the launch-campaign function
(src/supabase/functions/launch-campaign/index.ts lines 62-73): sets the
campaign's status to "Launched" by id, unconditionally. -/
def launchCampaignUpdate (db : DB) (campaignId : String) : DB :=
  { db with campaigns := db.campaigns.map fun c =>
      if c.id = campaignId then { c with status := "Launched" } else c }

/-- The stored status of a campaign. -/
def campaignStatus (db : DB) (campaignId : String) : Option String :=
  (db.campaigns.find? fun c => c.id = campaignId).map (·.status)

/-- A sequence of batch-status-driven campaign updates
(batchId, providerStatus, userId), applied in order. -/
def applyBatchUpdates (db : DB) : List (String × String × String) → DB
  | [] => db
  | (b, s, u) :: rest => applyBatchUpdates (updateCampaignStatus db b s u) rest

/-! ### Webhook ingestion

The `post_call_transcription` payload fields that either handler variant
reads.  `Option` models an absent (or JSON-null) field; the source's
JavaScript truthiness tests additionally treat the empty string as absent,
which the guards below reproduce. -/
structure ConversationEvent where
  conversation_id : String
  agent_id : Option String
  status : Option String
  phone_number : Option String
  external_number : Option String
  contact_name : Option String
  call_successful : Option String
  call_duration_secs : Option Int
  cost : Option Int
  transcript_summary : Option String
  has_audio : Bool
  batch_call_id : Option String
  batch_call_recipient_id : Option String
  transcript : List TranscriptTurn
deriving Repr, DecidableEq

/-- The `batch_status_update` payload fields. -/
structure BatchStatusEvent where
  batch_id : String
  status : String
  total_calls_dispatched : Int
  last_updated_at_unix : Int
deriving Repr, DecidableEq

/-- The conversation row written by the second webhook variant's upsert
(index.ts lines 266-287): every column verbatim from the event, the
owner from the resolved user id; `campaign_id` is not in the payload, so
a fresh insert leaves it at the column default NULL. -/
def conversationRowV2 (e : ConversationEvent) (userId : String) : Conversation :=
  { conversation_id := e.conversation_id
    user_id := userId
    agent_id := e.agent_id
    campaign_id := none
    phone_number := e.external_number
    contact_name := e.contact_name
    status := e.status
    call_successful := e.call_successful
    call_duration_secs := e.call_duration_secs.getD 0
    total_cost := e.cost.getD 0
    conversation_summary := e.transcript_summary
    has_audio := e.has_audio
    elevenlabs_batch_id := e.batch_call_id
    recipient_id := e.batch_call_recipient_id
    recipient_phone_number := e.external_number }

/-- The conversation row written by the first webhook variant's upsert
(index.ts lines 78-98): identical except the phone number comes from
`data.phone_number` and `recipient_phone_number` is not in the payload. -/
def conversationRowV1 (e : ConversationEvent) (userId : String) : Conversation :=
  { conversationRowV2 e userId with
    phone_number := e.phone_number
    recipient_phone_number := none }

/-- On-conflict column merge for the second variant's upsert: every payload
column is overwritten, the absent `campaign_id` column keeps its stored
value. -/
def mergeConvV2 (old new : Conversation) : Conversation :=
  { new with campaign_id := old.campaign_id }

/-- On-conflict column merge for the first variant's upsert: additionally
`recipient_phone_number` is not in the payload and keeps its stored
value. -/
def mergeConvV1 (old new : Conversation) : Conversation :=
  { new with campaign_id := old.campaign_id
             recipient_phone_number := old.recipient_phone_number }

/-- PostgREST upsert with `onConflict: 'conversation_id'`: if a row with
the key exists, the payload columns are applied to every matching row via
`merge`; otherwise the new row is inserted. -/
def upsertConv (merge : Conversation → Conversation → Conversation)
    (l : List Conversation) (v : Conversation) : List Conversation :=
  if l.any fun c => c.conversation_id = v.conversation_id then
    l.map fun c => if c.conversation_id = v.conversation_id then merge c v else c
  else l ++ [v]

/-- The second variant's transcript upsert keyed by `conversation_id`. -/
def upsertTranscript (l : List TranscriptRow) (cid : String)
    (turns : List TranscriptTurn) : List TranscriptRow :=
  if l.any fun t => t.conversation_id = cid then
    l.map fun t => if t.conversation_id = cid then { t with full_transcript := turns } else t
  else l ++ [{ conversation_id := cid, full_transcript := turns }]

/-- Step 3 of both webhook variants: link every recipient row matching the
provider recipient id to the conversation and copy the event status onto
it. -/
def linkRecipient (l : List Recipient) (rid convId : String)
    (status : Option String) : List Recipient :=
  l.map fun r =>
    if r.elevenlabs_recipient_id = rid then
      { r with elevenlabs_conversation_id := some convId, status := status }
    else r

/-- Second variant, owner resolution step (a): recipients matched by
provider recipient id (guarded by JS truthiness of the id, read with
`.maybeSingle()`). -/
def recipientLookupV2 (db : DB) (e : ConversationEvent) : Option String :=
  match e.batch_call_recipient_id with
  | some rid =>
    if rid = "" then none
    else (exactlyOne (db.recipients.filter fun r =>
      r.elevenlabs_recipient_id = rid)).map (·.user_id)
  | none => none

/-- Second variant, owner resolution step (b): batch_calls matched by
provider batch id. -/
def batchLookupV2 (db : DB) (e : ConversationEvent) : Option String :=
  match e.batch_call_id with
  | some bid =>
    if bid = "" then none
    else (exactlyOne (db.batch_calls.filter fun b => b.batch_id = bid)).map (·.user_id)
  | none => none

/-- Owner resolution of the second webhook variant (index.ts lines
232-263): recipient record first, batch-call record as fallback. -/
def resolveOwnerV2 (db : DB) (e : ConversationEvent) : Option String :=
  match recipientLookupV2 db e with
  | some u => some u
  | none => batchLookupV2 db e

/-- `post_call_transcription` processing of the second webhook variant
(index.ts lines 228-325), on the path where every storage write succeeds:
resolve the owner (recipient first, then batch; HTTP 400 and no mutation
when neither resolves), upsert the conversation, upsert the transcript
row, and link the recipient when a recipient id is present.  Returns the
new state and the HTTP status the handler responds with. -/
def ingestConversationV2 (db : DB) (e : ConversationEvent) : DB × Nat :=
  match resolveOwnerV2 db e with
  | none => (db, 400)
  | some userId =>
    let conversations1 := upsertConv mergeConvV2 db.conversations (conversationRowV2 e userId)
    let db1 : DB := { db with conversations := conversations1 }
    let transcripts1 := upsertTranscript db1.transcripts e.conversation_id e.transcript
    let db2 : DB := { db1 with transcripts := transcripts1 }
    let db3 : DB :=
      match e.batch_call_recipient_id with
      | some rid =>
        if rid = "" then db2
        else { db2 with recipients := linkRecipient db2.recipients rid e.conversation_id e.status }
      | none => db2
    (db3, 200)

/-- `post_call_transcription` processing of the first webhook variant
(index.ts lines 57-138), on the path where every storage write succeeds:
a missing `batch_call` object raises and is caught as HTTP 500; a
recipient lookup (`.single()`) that does not yield a row responds
HTTP 404 with no mutation; otherwise the conversation is upserted, one
transcript row is inserted per turn, and the recipient is linked. -/
def ingestConversationV1 (db : DB) (e : ConversationEvent) : DB × Nat :=
  match e.batch_call_recipient_id with
  | none => (db, 500)
  | some rid =>
    match exactlyOne (db.recipients.filter fun r =>
        r.elevenlabs_recipient_id = rid) with
    | none => (db, 404)
    | some recipientRecord =>
      let userId := recipientRecord.user_id
      let conversations1 := upsertConv mergeConvV1 db.conversations (conversationRowV1 e userId)
      let db1 : DB := { db with conversations := conversations1 }
      let entries1 := db1.transcript_entries ++ e.transcript.map fun t =>
        { conversation_id := e.conversation_id, role := t.role
          message := t.message, time_in_call_secs := t.time_in_call_secs : TranscriptEntry }
      let db2 : DB := { db1 with transcript_entries := entries1 }
      let recipients1 := linkRecipient db2.recipients recipientRecord.elevenlabs_recipient_id
        e.conversation_id e.status
      let db3 : DB := { db2 with recipients := recipients1 }
      (db3, 200)

/-- `batch_status_update` processing, identical in both variants (update
of every `batch_calls` row matching the batch id, no campaign write). -/
def applyBatchStatusUpdate (db : DB) (b : BatchStatusEvent) : DB :=
  { db with batch_calls := db.batch_calls.map fun bc =>
      if bc.batch_id = b.batch_id then
        { bc with status := b.status
                  total_calls_dispatched := b.total_calls_dispatched
                  last_updated_at_unix := b.last_updated_at_unix }
      else bc }

/-- A webhook envelope after signature verification: the `type`
discriminator and whichever `data` payload it carries (`none` models a
`data` field that cannot be read as the expected payload, which the
handlers surface as a caught runtime error, HTTP 500). -/
structure WebhookEnvelope where
  type : String
  conv : Option ConversationEvent
  batch : Option BatchStatusEvent
deriving Repr, DecidableEq

/-- The handler's observable outcome: resulting state, HTTP status, and
whether the response body is the `{"success": true}` JSON. -/
structure WebhookResult where
  db : DB
  status : Nat
  successBody : Bool
deriving Repr, DecidableEq

/-- Type dispatch of the first webhook variant (index.ts lines 57-161)
for a request that passed signature verification: the two known types are
processed, every other type falls through to the final
`{"success": true}` HTTP 200 response with no state touched. -/
def handleWebhookV1 (db : DB) (env : WebhookEnvelope) : WebhookResult :=
  if env.type = "post_call_transcription" then
    match env.conv with
    | none => { db := db, status := 500, successBody := false }
    | some e =>
      let r := ingestConversationV1 db e
      if r.2 = 200 then { db := r.1, status := 200, successBody := true }
      else { db := r.1, status := r.2, successBody := false }
  else if env.type = "batch_status_update" then
    match env.batch with
    | none => { db := db, status := 500, successBody := false }
    | some b => { db := applyBatchStatusUpdate db b, status := 200, successBody := true }
  else { db := db, status := 200, successBody := true }

/-- Type dispatch of the second webhook variant (index.ts lines 228-348),
same shape with the second variant's conversation processing. -/
def handleWebhookV2 (db : DB) (env : WebhookEnvelope) : WebhookResult :=
  if env.type = "post_call_transcription" then
    match env.conv with
    | none => { db := db, status := 500, successBody := false }
    | some e =>
      let r := ingestConversationV2 db e
      if r.2 = 200 then { db := r.1, status := 200, successBody := true }
      else { db := r.1, status := r.2, successBody := false }
  else if env.type = "batch_status_update" then
    match env.batch with
    | none => { db := db, status := 500, successBody := false }
    | some b => { db := applyBatchStatusUpdate db b, status := 200, successBody := true }
  else { db := db, status := 200, successBody := true }

/-! ### Derived ledger queries -/

/-- The stored balance of a user. -/
def availableMinutesOf (db : DB) (u : String) : Option Int :=
  (db.profiles.find? fun p => p.user_id = u).map (·.available_minutes)

/-- All refund ledger rows for a (user, batch). -/
def refundRows (db : DB) (u b : String) : List MinutesTransaction :=
  db.minutes_transactions.filter fun t =>
    t.user_id = u ∧ t.batch_id = some b ∧ t.transaction_type = "refund"

/-- Total refunded minutes for a (user, batch). -/
def totalRefundMinutes (db : DB) (u b : String) : Int :=
  ((refundRows db u b).map (·.minutes)).sum

/-- Total deducted minutes for a (user, batch). -/
def totalDeductionMinutes (db : DB) (u b : String) : Int :=
  ((db.minutes_transactions.filter fun t =>
      t.user_id = u ∧ t.batch_id = some b ∧ t.transaction_type = "deduction").map
    (·.minutes)).sum

/-! ### Concrete scenarios -/

/-- A deduction ledger row as written at campaign launch. -/
def mkDeduction (u c b : String) (m : Int) : MinutesTransaction :=
  { user_id := u, campaign_id := some c, batch_id := some b
    transaction_type := "deduction", minutes := m
    description := "Campaign launch deduction" }

/-- User u1 holds 100 minutes and was charged 10 for batch b1. -/
def dbSettleTwice : DB :=
  { emptyDB with
    profiles := [{ user_id := "u1", available_minutes := 100 }]
    minutes_transactions := [mkDeduction "u1" "c1" "b1" 10] }

/-- User u2 holds 50 minutes and was charged 8 for batch b2. -/
def dbRefundCap : DB :=
  { emptyDB with
    profiles := [{ user_id := "u2", available_minutes := 50 }]
    minutes_transactions := [mkDeduction "u2" "c2" "b2" 8] }

/-- User u4 holds 30 minutes and was charged 5 for batch b4. -/
def dbAtomicity : DB :=
  { emptyDB with
    profiles := [{ user_id := "u4", available_minutes := 30 }]
    minutes_transactions := [mkDeduction "u4" "c4" "b4" 5] }

/-- The storage outcome in which only the final refund-row insert fails. -/
def insertFails : StepOutcomes :=
  { conversationsFetchOk := true, profileFetchOk := true
    profileUpdateOk := true, refundInsertOk := false }

/-- Campaign c8 of user u8 already stands Completed; its batch b8 is
linked to it. -/
def dbTerminal : DB :=
  { emptyDB with
    campaigns := [{ id := "c8", user_id := "u8", status := "Completed" }]
    batch_calls := [{ batch_id := "b8", user_id := "u8", campaign_id := some "c8"
                      status := "completed", total_calls_scheduled := 1
                      total_calls_dispatched := 1, last_updated_at_unix := 0 }] }

/-- A recipient of batch b9 owned by u9, not yet linked to a
conversation. -/
def recipientW : Recipient :=
  { user_id := "u9", elevenlabs_batch_id := "b9"
    elevenlabs_recipient_id := "r9", phone_number := "+15550100"
    contact_name := none, status := some "initiated"
    elevenlabs_conversation_id := none }

/-- State holding `recipientW` alongside its batch row. -/
def dbWebhook : DB :=
  { emptyDB with
    recipients := [recipientW]
    batch_calls := [{ batch_id := "b9", user_id := "u9", campaign_id := some "c9"
                      status := "in_progress", total_calls_scheduled := 1
                      total_calls_dispatched := 1, last_updated_at_unix := 0 }] }

/-- A terminal-call webhook event for the recipient of `dbWebhook`. -/
def eventWebhook : ConversationEvent :=
  { conversation_id := "conv9"
    agent_id := some "agent9"
    status := some "done"
    phone_number := some "+15550100"
    external_number := some "+15550100"
    contact_name := some "Ada"
    call_successful := some "success"
    call_duration_secs := some 45
    cost := some 7
    transcript_summary := some "ok"
    has_audio := true
    batch_call_id := some "b9"
    batch_call_recipient_id := some "r9"
    transcript := [{ role := "agent", message := "hello", time_in_call_secs := 1 }] }

/-- A webhook event whose recipient id matches nothing, with no batch id
fallback: the owner cannot be resolved. -/
def eventOrphan : ConversationEvent :=
  { eventWebhook with
    conversation_id := "convX"
    batch_call_id := none
    batch_call_recipient_id := some "rX" }

/-! ## Helper lemmas -/

theorem exactlyOne_map {α β : Type} (f : α → β) (l : List α) :
    exactlyOne (l.map f) = (exactlyOne l).map f := by
  match l with
  | [] => rfl
  | [_] => rfl
  | _ :: _ :: _ => rfl

theorem exactlyOne_mem {α : Type} {l : List α} {a : α}
    (h : exactlyOne l = some a) : a ∈ l := by
  match l, h with
  | [_], rfl => exact List.mem_singleton.mpr rfl

theorem filter_map_pres {α : Type} (g : α → α) (p : α → Bool)
    (h : ∀ x, p (g x) = p x) (l : List α) :
    (l.map g).filter p = (l.filter p).map g := by
  induction l with
  | nil => rfl
  | cons a t ih =>
    simp only [List.map_cons, List.filter_cons, h a]
    cases p a <;> simp [ih]

theorem find_map_pres {α : Type} (g : α → α) (p : α → Bool)
    (h : ∀ x, p (g x) = p x) (l : List α) :
    (l.map g).find? p = (l.find? p).map g := by
  induction l with
  | nil => rfl
  | cons a t ih =>
    cases hpa : p a with
    | true =>
      rw [List.map_cons, List.find?_cons_of_pos _ (by rw [h a]; exact hpa),
        List.find?_cons_of_pos _ hpa]
      rfl
    | false =>
      rw [List.map_cons, List.find?_cons_of_neg _ (by simp [h a, hpa]),
        List.find?_cons_of_neg _ (by simp [hpa]), ih]

theorem foldl_add_eq_sum {α : Type} (f : α → Int) (l : List α) :
    ∀ a : Int, l.foldl (fun s c => s + f c) a = a + (l.map f).sum := by
  induction l with
  | nil => intro a; simp
  | cons c t ih =>
    intro a
    rw [List.foldl_cons, ih, List.map_cons, List.sum_cons, add_assoc]

theorem convBillable_of_some {c : Conversation} {s : String}
    (hs : c.status = some s) :
    convBillable c = billableMinutes c.call_duration_secs (c.status.getD "") := by
  simp [convBillable, hs]

theorem convBillable_of_not_billable {c : Conversation}
    (hb : isBillableStatus c.status = false) : convBillable c = 0 := by
  cases hs : c.status with
  | none => simp [convBillable, hs]
  | some s =>
    rw [hs] at hb
    simp only [isBillableStatus] at hb
    simp [convBillable, hs, billableMinutes, hb]

theorem sum_convBillable (l : List Conversation) :
    (l.map convBillable).sum =
      ((l.filter fun c => isBillableStatus c.status).map fun c =>
        billableMinutes c.call_duration_secs (c.status.getD "")).sum := by
  induction l with
  | nil => rfl
  | cons c t ih =>
    rw [List.map_cons, List.sum_cons, List.filter_cons]
    cases hb : isBillableStatus c.status with
    | true =>
      cases hs : c.status with
      | none => rw [hs, isBillableStatus] at hb; cases hb
      | some s =>
        rw [if_pos rfl, List.map_cons, List.sum_cons, ih, convBillable_of_some hs]
    | false =>
      rw [if_neg (by simp [hb]), convBillable_of_not_billable hb, zero_add, ih]

theorem option_map_ext {α β : Type} (o : Option α) (f g : α → β)
    (h : ∀ a, f a = g a) : o.map f = o.map g := by
  cases o <;> simp [h]

theorem upsertConv_idem (merge : Conversation → Conversation → Conversation)
    (v : Conversation)
    (hmerge2 : ∀ c, merge (merge c v) v = merge c v)
    (hmergev : merge v v = v)
    (hid : ∀ c, (merge c v).conversation_id = v.conversation_id)
    (l : List Conversation) :
    upsertConv merge (upsertConv merge l v) v = upsertConv merge l v := by
  by_cases hany : (l.any fun c => c.conversation_id = v.conversation_id) = true
  · have h1 : upsertConv merge l v = l.map fun c =>
        if c.conversation_id = v.conversation_id then merge c v else c := by
      rw [upsertConv, if_pos hany]
    obtain ⟨a, ha, hpa⟩ := List.any_eq_true.mp hany
    have hfa : (if a.conversation_id = v.conversation_id then merge a v else a) = merge a v :=
      if_pos (of_decide_eq_true hpa)
    have hany2 : ((l.map fun c =>
        if c.conversation_id = v.conversation_id then merge c v else c).any fun c =>
          c.conversation_id = v.conversation_id) = true := by
      rw [List.any_map]
      refine List.any_eq_true.mpr ⟨a, ha, ?_⟩
      show decide ((if a.conversation_id = v.conversation_id then merge a v
          else a).conversation_id = v.conversation_id) = true
      rw [hfa, hid a]
      exact decide_eq_true rfl
    rw [h1, upsertConv, if_pos hany2, List.map_map]
    refine List.map_congr_left fun c _ => ?_
    by_cases hc : c.conversation_id = v.conversation_id
    · simp only [Function.comp_apply, if_pos hc, if_pos (hid c), hmerge2 c]
    · simp only [Function.comp_apply, if_neg hc]
  · have h1 : upsertConv merge l v = l ++ [v] := by rw [upsertConv, if_neg hany]
    have hany2 : ((l ++ [v]).any fun c => c.conversation_id = v.conversation_id) = true := by
      simp
    rw [h1, upsertConv, if_pos hany2, List.map_append]
    have hfalse : (l.any fun c => c.conversation_id = v.conversation_id) = false := by
      revert hany
      cases l.any fun c => c.conversation_id = v.conversation_id <;> simp
    have hall := List.any_eq_false.mp hfalse
    have hl : (l.map fun c =>
        if c.conversation_id = v.conversation_id then merge c v else c) = l := by
      calc (l.map fun c => if c.conversation_id = v.conversation_id then merge c v else c)
          = l.map id := List.map_congr_left fun c hc => by
            have hne : ¬ c.conversation_id = v.conversation_id := fun hcc =>
              hall c hc (decide_eq_true hcc)
            simp [hne]
        _ = l := List.map_id l
    have hv : ([v].map fun c =>
        if c.conversation_id = v.conversation_id then merge c v else c) = [v] := by
      simp [hmergev]
    rw [hl, hv]

theorem upsertConv_mem_fields (merge : Conversation → Conversation → Conversation)
    (v : Conversation)
    (hdur : ∀ c, (merge c v).call_duration_secs = v.call_duration_secs)
    (hcost : ∀ c, (merge c v).total_cost = v.total_cost)
    (l : List Conversation) :
    ∀ c ∈ upsertConv merge l v, c.conversation_id = v.conversation_id →
      c.call_duration_secs = v.call_duration_secs ∧ c.total_cost = v.total_cost := by
  intro c hc hcid
  rw [upsertConv] at hc
  by_cases hany : (l.any fun x => x.conversation_id = v.conversation_id) = true
  · rw [if_pos hany] at hc
    obtain ⟨a, _, rfl⟩ := List.mem_map.mp hc
    by_cases ha : a.conversation_id = v.conversation_id
    · rw [if_pos ha]
      exact ⟨hdur a, hcost a⟩
    · rw [if_neg ha] at hcid ⊢
      exact absurd hcid ha
  · rw [if_neg hany] at hc
    rcases List.mem_append.mp hc with hmem | hmem
    · have hfalse : (l.any fun x => x.conversation_id = v.conversation_id) = false := by
        revert hany
        cases l.any fun x => x.conversation_id = v.conversation_id <;> simp
      exact absurd (decide_eq_true hcid) (List.any_eq_false.mp hfalse c hmem)
    · rw [List.mem_singleton.mp hmem]
      exact ⟨rfl, rfl⟩

theorem upsertConv_mem_exists (merge : Conversation → Conversation → Conversation)
    (v : Conversation)
    (hid : ∀ c, (merge c v).conversation_id = v.conversation_id)
    (l : List Conversation) :
    ∃ c ∈ upsertConv merge l v, c.conversation_id = v.conversation_id := by
  rw [upsertConv]
  by_cases hany : (l.any fun x => x.conversation_id = v.conversation_id) = true
  · rw [if_pos hany]
    obtain ⟨a, ha, hpa⟩ := List.any_eq_true.mp hany
    refine ⟨if a.conversation_id = v.conversation_id then merge a v else a,
      List.mem_map.mpr ⟨a, ha, rfl⟩, ?_⟩
    rw [if_pos (of_decide_eq_true hpa)]
    exact hid a
  · rw [if_neg hany]
    exact ⟨v, List.mem_append.mpr (Or.inr (List.mem_singleton.mpr rfl)), rfl⟩

theorem linkRecipient_filter (l : List Recipient) (rid0 cid : String)
    (st : Option String) (rid : String) :
    ((linkRecipient l rid0 cid st).filter fun r => r.elevenlabs_recipient_id = rid)
      = (l.filter fun r => r.elevenlabs_recipient_id = rid).map fun r =>
          if r.elevenlabs_recipient_id = rid0 then
            { r with elevenlabs_conversation_id := some cid, status := st }
          else r := by
  rw [linkRecipient]
  refine filter_map_pres _ _ (fun x => ?_) l
  by_cases hx : x.elevenlabs_recipient_id = rid0 <;> simp [hx]

theorem linkRecipient_lookup (l : List Recipient) (rid0 cid : String)
    (st : Option String) (rid : String) :
    (exactlyOne ((linkRecipient l rid0 cid st).filter fun r =>
        r.elevenlabs_recipient_id = rid)).map (·.user_id)
      = (exactlyOne (l.filter fun r => r.elevenlabs_recipient_id = rid)).map (·.user_id) := by
  rw [linkRecipient_filter, exactlyOne_map, Option.map_map]
  refine option_map_ext _ _ _ fun r => ?_
  by_cases hr : r.elevenlabs_recipient_id = rid0 <;> simp [hr]

theorem ingestV2_frame (db : DB) (e : ConversationEvent) :
    (ingestConversationV2 db e).1.minutes_transactions = db.minutes_transactions ∧
    (ingestConversationV2 db e).1.profiles = db.profiles ∧
    (ingestConversationV2 db e).1.batch_calls = db.batch_calls := by
  rcases h : resolveOwnerV2 db e with _ | u
  · simp [ingestConversationV2, h]
  · simp only [ingestConversationV2, h]
    rcases hrid : e.batch_call_recipient_id with _ | rid
    · exact ⟨rfl, rfl, rfl⟩
    · by_cases hempty : rid = "" <;> simp [hempty]

theorem ingestV2_conversations (db : DB) (e : ConversationEvent) (u : String)
    (h : resolveOwnerV2 db e = some u) :
    (ingestConversationV2 db e).1.conversations =
      upsertConv mergeConvV2 db.conversations (conversationRowV2 e u) := by
  simp only [ingestConversationV2, h]
  rcases hrid : e.batch_call_recipient_id with _ | rid
  · rfl
  · by_cases hempty : rid = "" <;> simp [hempty]

theorem ingestV2_recipients (db : DB) (e : ConversationEvent) (u : String)
    (h : resolveOwnerV2 db e = some u) (rid : String)
    (hrid : e.batch_call_recipient_id = some rid) (hempty : ¬ rid = "") :
    (ingestConversationV2 db e).1.recipients =
      linkRecipient db.recipients rid e.conversation_id e.status := by
  simp only [ingestConversationV2, h, hrid]
  simp [hempty]

theorem ingestV2_resolve_stable (db : DB) (e : ConversationEvent) :
    resolveOwnerV2 (ingestConversationV2 db e).1 e = resolveOwnerV2 db e := by
  rcases h : resolveOwnerV2 db e with _ | u
  · simp [ingestConversationV2, h]
  · have hb : batchLookupV2 (ingestConversationV2 db e).1 e = batchLookupV2 db e := by
      rcases hbid : e.batch_call_id with _ | bid <;>
        simp [batchLookupV2, hbid, (ingestV2_frame db e).2.2]
    have hr : recipientLookupV2 (ingestConversationV2 db e).1 e
        = recipientLookupV2 db e := by
      rcases hrid : e.batch_call_recipient_id with _ | rid
      · simp [recipientLookupV2, hrid]
      · by_cases hempty : rid = ""
        · simp [recipientLookupV2, hrid, hempty]
        · have hrec := ingestV2_recipients db e u h rid hrid hempty
          simp only [recipientLookupV2, hrid, if_neg hempty]
          rw [hrec, linkRecipient_lookup]
    unfold resolveOwnerV2
    rw [hr, hb]
    exact h

theorem ingestV1_frame (db : DB) (e : ConversationEvent) :
    (ingestConversationV1 db e).1.minutes_transactions = db.minutes_transactions ∧
    (ingestConversationV1 db e).1.profiles = db.profiles := by
  rcases hrid : e.batch_call_recipient_id with _ | rid
  · simp [ingestConversationV1, hrid]
  · rcases hone : exactlyOne (db.recipients.filter fun r =>
        r.elevenlabs_recipient_id = rid) with _ | r <;>
      simp [ingestConversationV1, hrid, hone]

theorem ingestV1_conversations (db : DB) (e : ConversationEvent) (rid : String)
    (hrid : e.batch_call_recipient_id = some rid) (r : Recipient)
    (hone : exactlyOne (db.recipients.filter fun x =>
      x.elevenlabs_recipient_id = rid) = some r) :
    (ingestConversationV1 db e).1.conversations =
      upsertConv mergeConvV1 db.conversations (conversationRowV1 e r.user_id) ∧
    (ingestConversationV1 db e).1.recipients =
      linkRecipient db.recipients r.elevenlabs_recipient_id e.conversation_id e.status := by
  simp [ingestConversationV1, hrid, hone]

theorem mapBatchStatus_cases (s : String) :
    mapBatchStatus s = some "Completed" ∨ mapBatchStatus s = some "Failed" ∨
      mapBatchStatus s = none := by
  unfold mapBatchStatus
  split
  · exact Or.inl rfl
  · split
    · exact Or.inr (Or.inl rfl)
    · exact Or.inr (Or.inr rfl)

/-! ## Claim theorems -/

/-- Claim C6: `billableMinutes` is a pure function that contributes 0 unless the
status is case-insensitively "done" or "completed"; for billable statuses
it bills 0 minutes for a duration of 0 (or fewer) seconds, 1 minute for
1–60 seconds, and `ceil(durationSecs / 60)` minutes otherwise; in
particular the spec's test values hold and every duration under status
"failed" bills 0. -/
theorem billableMinutes_spec (d : Int) (s : String) :
    billableMinutes 0 "completed" = 0 ∧
    billableMinutes 45 "completed" = 1 ∧
    billableMinutes 60 "completed" = 1 ∧
    billableMinutes 61 "completed" = 2 ∧
    billableMinutes d "failed" = 0 ∧
    (billableStatusStr s = false → billableMinutes d s = 0) ∧
    (billableStatusStr s = true →
      (d ≤ 0 → billableMinutes d s = 0) ∧
      (1 ≤ d → d ≤ 60 → billableMinutes d s = 1) ∧
      (60 < d → billableMinutes d s = (((d.toNat + 59) / 60 : Nat) : Int))) := by
  refine ⟨by decide, by decide, by decide, by decide, ?_, ?_, ?_⟩
  · rw [billableMinutes, show billableStatusStr "failed" = false from by decide]
    rfl
  · intro hb
    rw [billableMinutes, hb]
    rfl
  · intro hb
    refine ⟨fun h0 => ?_, fun h1 h60 => ?_, fun h60 => ?_⟩
    · rw [billableMinutes, hb, if_pos h0]
      rfl
    · rw [billableMinutes, hb, if_neg (show ¬d ≤ 0 by omega), if_pos h60]
      rfl
    · rw [billableMinutes, hb, if_neg (show ¬d ≤ 0 by omega),
        if_neg (show ¬d ≤ 60 by omega)]
      rfl

/-- Witness for C6 at a concrete billable input. -/
theorem billableMinutes_spec_witness : billableMinutes 90 "Done" = 2 :=
  (((billableMinutes_spec 90 "Done").2.2.2.2.2.2 (by decide)).2.2 (by decide)).trans
    (by decide)

/-- Claim C7: the batch-status → campaign-status mapping is a pure, total
function of the lowercased provider string: the completed family maps to
"Completed", the failed family to "Failed", and every other string maps
to no campaign-status change (`none`) — never an error. -/
theorem mapBatchStatus_total_spec (s : String) :
    (mapBatchStatus s = some "Completed" ∨ mapBatchStatus s = some "Failed" ∨
      mapBatchStatus s = none) ∧
    mapBatchStatus "completed" = some "Completed" ∧
    mapBatchStatus "successful" = some "Completed" ∧
    mapBatchStatus "success" = some "Completed" ∧
    mapBatchStatus "failed" = some "Failed" ∧
    mapBatchStatus "error" = some "Failed" ∧
    mapBatchStatus "cancelled" = some "Failed" ∧
    mapBatchStatus "COMPLETED" = some "Completed" ∧
    mapBatchStatus "Cancelled" = some "Failed" ∧
    mapBatchStatus "pending" = none ∧
    mapBatchStatus "in_progress" = none :=
  ⟨mapBatchStatus_cases s, by decide, by decide, by decide, by decide, by decide,
    by decide, by decide, by decide, by decide, by decide⟩

/-- Claim C1 fails on the code: `handleMinutesRefund` never looks for an
existing refund row, so settling the same completed batch twice (user u1,
batch b1, original deduction 10) appends two refund rows and increments
the balance twice (100 → 120). -/
theorem settle_twice_double_refund :
    (refundRows (handleMinutesRefund (handleMinutesRefund dbSettleTwice "b1" "u1" true)
        "b1" "u1" true) "u1" "b1").length = 2 ∧
    availableMinutesOf (handleMinutesRefund (handleMinutesRefund dbSettleTwice "b1" "u1" true)
        "b1" "u1" true) "u1" = some 120 := by
  decide

/-- Claim C2 fails on the code: after two settlement calls for (u2, b2) the
refund rows total 16 minutes while the only deduction for that batch is
8 minutes — the claimed cap is exceeded. -/
theorem refund_cap_exceeded :
    totalDeductionMinutes (handleMinutesRefund (handleMinutesRefund dbRefundCap "b2" "u2" true)
        "b2" "u2" true) "u2" "b2" = 8 ∧
    totalRefundMinutes (handleMinutesRefund (handleMinutesRefund dbRefundCap "b2" "u2" true)
        "b2" "u2" true) "u2" "b2" = 16 := by
  decide

/-- Claim C4 fails on the code: the balance update and the ledger append are
two separate writes with no rollback — when the refund-row insert fails
after the balance write succeeded, the run ends with the balance
incremented (30 → 35) and zero refund rows recorded. -/
theorem settle_balance_without_ledger_row :
    availableMinutesOf (handleMinutesRefundF dbAtomicity "b4" "u4" true insertFails) "u4"
      = some 35 ∧
    (refundRows (handleMinutesRefundF dbAtomicity "b4" "u4" true insertFails) "u4" "b4").length
      = 0 := by
  decide

/-- Claim C3: the refund amount of `settleCampaignMinutes`
(`settleRefundAmount`, the quantity `handleMinutesRefund` books when
positive) is the full original deduction when the campaign failed, and
otherwise `max(0, originalMinutes − Σ billableMinutes)` over the
campaign's conversations whose status is case-insensitively
done/completed. -/
theorem settle_refund_formula (db : DB) (ded : MinutesTransaction) :
    settleRefundAmount db ded true = ded.minutes ∧
    settleRefundAmount db ded false =
      max 0 (ded.minutes -
        (((db.conversations.filter fun c => c.campaign_id = ded.campaign_id).filter
            fun c => isBillableStatus c.status).map fun c =>
          billableMinutes c.call_duration_secs (c.status.getD "")).sum) := by
  constructor
  · rfl
  · rw [settleRefundAmount, if_neg (by simp), actualMinutesUsed,
      foldl_add_eq_sum, zero_add, sum_convBillable]

/-- Claim C8 fails on the code: `updateCampaignStatus` never consults the
current campaign status, so a late "cancelled" batch event moves
campaign c8 out of the terminal status Completed into Failed. -/
theorem campaign_leaves_terminal_status :
    campaignStatus dbTerminal "c8" = some "Completed" ∧
    campaignStatus (updateCampaignStatus dbTerminal "b8" "cancelled" "u8") "c8"
      = some "Failed" ∧
    campaignStatus (launchCampaignUpdate dbTerminal "c8") "c8" = some "Launched" := by
  decide

/-- One batch-status-driven update step either leaves a campaign's status
unchanged or writes "Completed" or "Failed" to it. -/
theorem campaignStatus_update_cases (db : DB) (b s u cid : String) :
    campaignStatus (updateCampaignStatus db b s u) cid = campaignStatus db cid ∨
    campaignStatus (updateCampaignStatus db b s u) cid = some "Completed" ∨
    campaignStatus (updateCampaignStatus db b s u) cid = some "Failed" := by
  rcases hbc : exactlyOne (db.batch_calls.filter fun bc =>
      bc.batch_id = b ∧ bc.user_id = u) with _ | bc
  · left
    simp only [updateCampaignStatus, hbc]
  · rcases hcid : bc.campaign_id with _ | c0
    · left
      simp only [updateCampaignStatus, hbc, hcid]
    · rcases hm : mapBatchStatus s with _ | st
      · left
        simp only [updateCampaignStatus, hbc, hcid, hm]
      · have hst : st = "Completed" ∨ st = "Failed" := by
          rcases mapBatchStatus_cases s with h | h | h <;> rw [hm] at h
          · exact Or.inl (Option.some.inj h)
          · exact Or.inr (Option.some.inj h)
          · cases h
        have hfind :
            ((db.campaigns.map fun c =>
                if c.id = c0 then { c with status := st } else c).find? fun c =>
              c.id = cid)
            = (db.campaigns.find? fun c => c.id = cid).map fun c =>
                if c.id = c0 then { c with status := st } else c := by
          refine find_map_pres _ _ (fun c => ?_) db.campaigns
          by_cases hc : c.id = c0 <;> simp [hc]
        simp only [updateCampaignStatus, hbc, hcid, hm, campaignStatus]
        rw [hfind]
        rcases hf : db.campaigns.find? fun c => c.id = cid with _ | c1
        · left
          rw [hf]
          rfl
        · by_cases hc1 : c1.id = c0
          · rcases hst with h | h <;> subst h
            · right; left; rw [hf]; simp [hc1]
            · right; right; rw [hf]; simp [hc1]
          · left; rw [hf]; simp [hc1]

/-- Claim C8, amended: the batch-status-driven updates only ever write
"Completed" or "Failed", so the *set* {Completed, Failed} is closed under
any sequence of them — but, because the current status is never checked,
a campaign can move between the two terminal statuses, and the launch
action can move it back out to "Launched"
(`campaign_leaves_terminal_status`). -/
theorem campaign_terminal_set_closed (steps : List (String × String × String)) :
    ∀ (db : DB) (cid : String),
      (campaignStatus db cid = some "Completed" ∨ campaignStatus db cid = some "Failed") →
      (campaignStatus (applyBatchUpdates db steps) cid = some "Completed" ∨
       campaignStatus (applyBatchUpdates db steps) cid = some "Failed") := by
  induction steps with
  | nil => exact fun db cid h => h
  | cons step rest ih =>
    intro db cid h
    obtain ⟨b, s, u⟩ := step
    show campaignStatus (applyBatchUpdates (updateCampaignStatus db b s u) rest) cid
        = some "Completed" ∨ _
    apply ih
    rcases campaignStatus_update_cases db b s u cid with h1 | h1 | h1
    · rw [h1]; exact h
    · exact Or.inl h1
    · exact Or.inr h1

/-- Claim C5: ingesting the identical conversation event twice is idempotent in
both webhook variants — the conversations table after the second
ingestion equals the table after the first; `call_duration_secs` and
cost are recorded verbatim from the event (never accumulated) in every
row stored under the event's conversation id; and conversation ingestion
writes neither the ledger nor any balance on any invocation. -/
theorem conversation_ingest_idempotent (db : DB) (e : ConversationEvent) :
    (ingestConversationV2 (ingestConversationV2 db e).1 e).1.conversations
        = (ingestConversationV2 db e).1.conversations ∧
    (ingestConversationV2 db e).1.minutes_transactions = db.minutes_transactions ∧
    (ingestConversationV2 db e).1.profiles = db.profiles ∧
    (∀ u, resolveOwnerV2 db e = some u →
      (∀ c ∈ (ingestConversationV2 db e).1.conversations,
          c.conversation_id = e.conversation_id →
          c.call_duration_secs = e.call_duration_secs.getD 0 ∧
          c.total_cost = e.cost.getD 0) ∧
      (∃ c ∈ (ingestConversationV2 db e).1.conversations,
          c.conversation_id = e.conversation_id)) ∧
    (ingestConversationV1 (ingestConversationV1 db e).1 e).1.conversations
        = (ingestConversationV1 db e).1.conversations ∧
    (ingestConversationV1 db e).1.minutes_transactions = db.minutes_transactions ∧
    (ingestConversationV1 db e).1.profiles = db.profiles := by
  refine ⟨?_, (ingestV2_frame db e).1, (ingestV2_frame db e).2.1, ?_, ?_,
    (ingestV1_frame db e).1, (ingestV1_frame db e).2⟩
  · rcases h : resolveOwnerV2 db e with _ | u
    · simp [ingestConversationV2, h]
    · have h2 : resolveOwnerV2 (ingestConversationV2 db e).1 e = some u := by
        rw [ingestV2_resolve_stable, h]
      rw [ingestV2_conversations _ e u h2, ingestV2_conversations db e u h]
      exact upsertConv_idem mergeConvV2 _ (fun _ => rfl) rfl (fun _ => rfl) db.conversations
  · intro u h
    rw [ingestV2_conversations db e u h]
    exact ⟨upsertConv_mem_fields mergeConvV2 (conversationRowV2 e u)
        (fun _ => rfl) (fun _ => rfl) db.conversations,
      upsertConv_mem_exists mergeConvV2 (conversationRowV2 e u)
        (fun _ => rfl) db.conversations⟩
  · rcases hrid : e.batch_call_recipient_id with _ | rid
    · simp [ingestConversationV1, hrid]
    · rcases hone : exactlyOne (db.recipients.filter fun x =>
          x.elevenlabs_recipient_id = rid) with _ | r
      · simp [ingestConversationV1, hrid, hone]
      · obtain ⟨hconv, hrec⟩ := ingestV1_conversations db e rid hrid r hone
        have hone2 : exactlyOne ((ingestConversationV1 db e).1.recipients.filter fun x =>
            x.elevenlabs_recipient_id = rid)
              = some (if r.elevenlabs_recipient_id = r.elevenlabs_recipient_id then
                  { r with elevenlabs_conversation_id := some e.conversation_id
                           status := e.status }
                else r) := by
          rw [hrec, linkRecipient_filter, exactlyOne_map, hone]
          rfl
        obtain ⟨hconv2, _⟩ := ingestV1_conversations (ingestConversationV1 db e).1 e rid hrid
          _ hone2
        rw [hconv2, if_pos rfl, hconv]
        exact upsertConv_idem mergeConvV1 _ (fun _ => rfl) rfl (fun _ => rfl) db.conversations

/-- Witness for C5 at the concrete recipient/event of `dbWebhook`:
ingestion resolves owner u9 and stores the event's duration and cost
verbatim. -/
theorem conversation_ingest_idempotent_witness :
    (ingestConversationV2 (ingestConversationV2 dbWebhook eventWebhook).1
        eventWebhook).1.conversations
      = (ingestConversationV2 dbWebhook eventWebhook).1.conversations ∧
    (conversationRowV2 eventWebhook "u9").call_duration_secs = 45 ∧
    (conversationRowV2 eventWebhook "u9").total_cost = 7 := by
  have h := conversation_ingest_idempotent dbWebhook eventWebhook
  have hres : resolveOwnerV2 dbWebhook eventWebhook = some "u9" := by decide
  have hfields := (h.2.2.2.1 "u9" hres).1 (conversationRowV2 eventWebhook "u9")
    (by decide) (by decide)
  exact ⟨h.1, hfields.1, hfields.2⟩

/-- Witness for the amended C8: campaign c8 starts Completed and is still
in a terminal status after a "cancelled" batch update. -/
theorem campaign_terminal_set_closed_witness :
    campaignStatus (applyBatchUpdates dbTerminal [("b8", "cancelled", "u8")]) "c8"
      = some "Completed" ∨
    campaignStatus (applyBatchUpdates dbTerminal [("b8", "cancelled", "u8")]) "c8"
      = some "Failed" :=
  campaign_terminal_set_closed [("b8", "cancelled", "u8")] dbTerminal "c8"
    (Or.inl (by decide))

/-- Claim C9: the second webhook variant resolves the owning user first from
the recipient record matched by provider recipient id, else from the
batch-call record matched by provider batch id; when neither resolves,
conversation ingestion returns HTTP 400 and the webhook endpoint
surfaces it as a 400 response with no state mutated. -/
theorem ingest_owner_resolution (db : DB) (e : ConversationEvent) :
    (∀ rid r, e.batch_call_recipient_id = some rid → rid ≠ "" →
      exactlyOne (db.recipients.filter fun x =>
        x.elevenlabs_recipient_id = rid) = some r →
      resolveOwnerV2 db e = some r.user_id) ∧
    (recipientLookupV2 db e = none →
      ∀ bid b, e.batch_call_id = some bid → bid ≠ "" →
        exactlyOne (db.batch_calls.filter fun x => x.batch_id = bid) = some b →
        resolveOwnerV2 db e = some b.user_id) ∧
    (resolveOwnerV2 db e = none → ingestConversationV2 db e = (db, 400)) ∧
    (resolveOwnerV2 db e = none →
      handleWebhookV2 db
          { type := "post_call_transcription", conv := some e, batch := none }
        = { db := db, status := 400, successBody := false }) := by
  refine ⟨?_, ?_, ?_, ?_⟩
  · intro rid r hrid hne hone
    have hr : recipientLookupV2 db e = some r.user_id := by
      simp [recipientLookupV2, hrid, hne, hone]
    simp [resolveOwnerV2, hr]
  · intro hnone bid b hbid hne hone
    simp [resolveOwnerV2, hnone, batchLookupV2, hbid, hne, hone]
  · intro h
    simp [ingestConversationV2, h]
  · intro h
    simp [handleWebhookV2, ingestConversationV2, h]

/-- Witness for C9: in `dbWebhook` the recipient row wins the
resolution, and the orphan event is surfaced as HTTP 400 with the state
untouched. -/
theorem ingest_owner_resolution_witness :
    resolveOwnerV2 dbWebhook eventWebhook = some "u9" ∧
    handleWebhookV2 dbWebhook
        { type := "post_call_transcription", conv := some eventOrphan, batch := none }
      = { db := dbWebhook, status := 400, successBody := false } := by
  constructor
  · exact (ingest_owner_resolution dbWebhook eventWebhook).1 "r9" recipientW rfl
      (by decide) (by decide)
  · exact (ingest_owner_resolution dbWebhook eventOrphan).2.2.2 (by decide)

/-- Claim C10: for a correctly signed envelope whose type is neither
post_call_transcription nor batch_status_update, both webhook handler
variants leave the whole state unchanged and respond HTTP 200 with the
success body. -/
theorem webhook_unknown_type_noop (db : DB) (env : WebhookEnvelope)
    (h1 : env.type ≠ "post_call_transcription") (h2 : env.type ≠ "batch_status_update") :
    handleWebhookV1 db env = { db := db, status := 200, successBody := true } ∧
    handleWebhookV2 db env = { db := db, status := 200, successBody := true } := by
  constructor <;> simp [handleWebhookV1, handleWebhookV2, h1, h2]

/-- Witness for C10 at a concrete unhandled envelope type. -/
theorem webhook_unknown_type_noop_witness :
    handleWebhookV1 emptyDB { type := "voice_removal_notice", conv := none, batch := none }
      = { db := emptyDB, status := 200, successBody := true } ∧
    handleWebhookV2 emptyDB { type := "voice_removal_notice", conv := none, batch := none }
      = { db := emptyDB, status := 200, successBody := true } :=
  webhook_unknown_type_noop emptyDB
    { type := "voice_removal_notice", conv := none, batch := none }
    (by decide) (by decide)

end CampaignReconciliation
